import Mathlib

/-!
# http-codes: the session controller of `main.go`

A shallow embedding of `src/main.go`: the session state `model`, the messages
`statusMsg` and `errMsg`, the prober `checkServer`, and the three methods
`Init`, `Update` and `View` that the terminal runtime calls.

Go's `int` is embedded as `Int` (the program does no arithmetic on it), a Go
`error` interface value as `Option` of the value it holds (`none` is `nil`).
-/

namespace HttpCodes

/-! ## Collaborators outside the repository -/

/-- A non-nil Go `error` value, observed through the text its `Error` method returns. -/
structure GoError where
  text : String
  deriving DecidableEq, Repr

/-- The method `Error()` of an underlying error. -/
def GoError.Error (e : GoError) : String := e.text

/-- The part of `http.Response` that the program reads: the field `StatusCode`. -/
structure Response where
  StatusCode : Int
  deriving DecidableEq, Repr

/-- A `tea.KeyMsg` of the terminal runtime, observed through the text its
`String` method returns (`"ctrl+c"`, `"q"`, `"enter"`, ...). -/
structure KeyMsg where
  str : String
  deriving DecidableEq, Repr

/-- The method `String()` of a key message. -/
def KeyMsg.String (k : KeyMsg) : String := k.str

/-- The verb `%d` of `fmt.Sprintf` on an `int`: the decimal digits, after a minus
sign when the number is negative. -/
def fmtD (n : Int) : String :=
  if n < 0 then "-" ++ Nat.repr (-n).toNat else Nat.repr n.toNat

/-- The function `http.StatusText` of Go's standard library: the reason phrase
the library tabulates for a status code, and the empty string for a code it
does not know. -/
def StatusText (code : Int) : String :=
  if code = 100 then "Continue"
  else if code = 101 then "Switching Protocols"
  else if code = 102 then "Processing"
  else if code = 103 then "Early Hints"
  else if code = 200 then "OK"
  else if code = 201 then "Created"
  else if code = 202 then "Accepted"
  else if code = 203 then "Non-Authoritative Information"
  else if code = 204 then "No Content"
  else if code = 205 then "Reset Content"
  else if code = 206 then "Partial Content"
  else if code = 207 then "Multi-Status"
  else if code = 208 then "Already Reported"
  else if code = 226 then "IM Used"
  else if code = 300 then "Multiple Choices"
  else if code = 301 then "Moved Permanently"
  else if code = 302 then "Found"
  else if code = 303 then "See Other"
  else if code = 304 then "Not Modified"
  else if code = 305 then "Use Proxy"
  else if code = 307 then "Temporary Redirect"
  else if code = 308 then "Permanent Redirect"
  else if code = 400 then "Bad Request"
  else if code = 401 then "Unauthorized"
  else if code = 402 then "Payment Required"
  else if code = 403 then "Forbidden"
  else if code = 404 then "Not Found"
  else if code = 405 then "Method Not Allowed"
  else if code = 406 then "Not Acceptable"
  else if code = 407 then "Proxy Authentication Required"
  else if code = 408 then "Request Timeout"
  else if code = 409 then "Conflict"
  else if code = 410 then "Gone"
  else if code = 411 then "Length Required"
  else if code = 412 then "Precondition Failed"
  else if code = 413 then "Request Entity Too Large"
  else if code = 414 then "Request URI Too Long"
  else if code = 415 then "Unsupported Media Type"
  else if code = 416 then "Requested Range Not Satisfiable"
  else if code = 417 then "Expectation Failed"
  else if code = 418 then "I\x27m a teapot"
  else if code = 421 then "Misdirected Request"
  else if code = 422 then "Unprocessable Entity"
  else if code = 423 then "Locked"
  else if code = 424 then "Failed Dependency"
  else if code = 425 then "Too Early"
  else if code = 426 then "Upgrade Required"
  else if code = 428 then "Precondition Required"
  else if code = 429 then "Too Many Requests"
  else if code = 431 then "Request Header Fields Too Large"
  else if code = 451 then "Unavailable For Legal Reasons"
  else if code = 500 then "Internal Server Error"
  else if code = 501 then "Not Implemented"
  else if code = 502 then "Bad Gateway"
  else if code = 503 then "Service Unavailable"
  else if code = 504 then "Gateway Timeout"
  else if code = 505 then "HTTP Version Not Supported"
  else if code = 506 then "Variant Also Negotiates"
  else if code = 507 then "Insufficient Storage"
  else if code = 508 then "Loop Detected"
  else if code = 510 then "Not Extended"
  else if code = 511 then "Network Authentication Required"
  else ""

/-! ## The program -/

/-- The constant `url`: the endpoint whose status is checked. -/
def url : String := "https://charm.sh"

/-- The message type `errMsg`, `struct{ err error }`: it wraps an error, and the
wrapped interface value may be `nil`. -/
structure errMsg where
  err : Option GoError
  deriving DecidableEq, Repr

/-- The method `errMsg.Error`: `e.err.Error()`. The call on a `nil` interface
value is a run-time fault, which is the result `none`. -/
def errMsg.Error (e : errMsg) : Option String :=
  match e.err with
  | some inner => some inner.Error
  | none => none

/-- The verb `%v` of `fmt.Sprintf` on an `errMsg` held in an `error`: the text of
its `Error` method; when that method faults, `fmt` recovers and prints the fault
in place of the text. -/
def fmtV (e : errMsg) : String :=
  match e.Error with
  | some t => t
  | none =>
    "%!v(PANIC=Error method: runtime error: invalid memory address or nil pointer dereference)"

/-- The struct `model`, the session state: `status` is the status code received
(`0`, Go's zero value, until one is stored), and `err` the error of the request
(`nil` until one is stored). The default value is `model{}`. -/
structure model where
  status : Int := 0
  err : Option errMsg := none
  deriving DecidableEq, Repr

/-- The messages `Update` is called with: the two probe outcomes, a key press,
and any other message of the runtime (a window resize, ...), told apart by a tag. -/
inductive Msg where
  | statusMsg (code : Int)
  | errMsg (e : errMsg)
  | KeyMsg (k : KeyMsg)
  | other (tag : Nat)
  deriving DecidableEq, Repr

/-- The commands the program hands to the runtime: `tea.Quit` and `checkServer`.
A `nil` command is `none` of `Option Cmd`. -/
inductive Cmd where
  | Quit
  | checkServer
  deriving DecidableEq, Repr

/-- The function `checkServer`, given what `c.Get(url)` returned: an error becomes
`errMsg{err}`, a response becomes `statusMsg(res.StatusCode)`. -/
def checkServer (get : Except GoError Response) : Msg :=
  match get with
  | .error err => Msg.errMsg { err := some err }
  | .ok res => Msg.statusMsg res.StatusCode

/-- The method `model.Init`: the first command is `checkServer`. -/
def model.Init (_m : model) : Option Cmd := some Cmd.checkServer

/-- The method `model.Update`: the type switch on the message. -/
def model.Update (m : model) (msg : Msg) : model × Option Cmd :=
  match msg with
  | Msg.statusMsg code => ({ m with status := code }, some Cmd.Quit)
  | Msg.errMsg e => ({ m with err := some e }, some Cmd.Quit)
  | Msg.KeyMsg k =>
    if k.String = "ctrl+c" then (m, some Cmd.Quit) else (m, none)
  | Msg.other _ => (m, none)

/-- The method `model.View`: the text painted for a state. -/
def model.View (m : model) : String :=
  match m.err with
  | some e => "Error: " ++ fmtV e ++ "\nPress Ctrl+C to exit."
  | none =>
    let s := "Checking " ++ url ++ "...\n"
    let s := if m.status > 0 then s ++ (fmtD m.status ++ " " ++ StatusText m.status ++ "!") else s
    "\n" ++ s ++ "\n\n"

/-! ## The event loop around the program -/

/-- A session: the state the runtime holds and whether the loop has stopped. -/
structure Session where
  m : model
  terminated : Bool
  deriving DecidableEq, Repr

/-- The session at start, `tea.NewProgram(model{})`: the zero state, running. -/
def Session.initial : Session := { m := {}, terminated := false }

/-- Modelled from the spec: the terminal runtime's handling of one event, which is
not part of this repository. Section 5: events are processed one at a time, and
once termination was signalled the loop has stopped, so a late event is ignored.
While running, the event goes through `Update`, and the loop stops when `Update`
returns the quit command. -/
def Session.deliver (s : Session) (msg : Msg) : Session :=
  if s.terminated then s
  else
    match s.m.Update msg with
    | (m', some Cmd.Quit) => { m := m', terminated := true }
    | (m', _) => { m := m', terminated := false }

/-- Modelled from the spec: the runtime's event loop, the events delivered in
arrival order. -/
def eventLoop (s : Session) (msgs : List Msg) : Session :=
  msgs.foldl Session.deliver s

/-! ## Predicates of the specification -/

/-- The field `statusCode` is present: the test `m.status > 0` of `View`. -/
def statusPresent (m : model) : Prop := 0 < m.status

/-- The field `probeError` is present: the test `m.err != nil` of `View`. -/
def errorPresent (m : model) : Prop := m.err ≠ none

instance (m : model) : Decidable (statusPresent m) := by
  unfold statusPresent; infer_instance

instance (m : model) : Decidable (errorPresent m) := by
  unfold errorPresent; infer_instance

/-- The text `sub` occurs in `out` as a run of consecutive characters. -/
def Occurs (sub out : String) : Prop :=
  ∃ pre suf : String, out = pre ++ sub ++ suf

/-- The text `out` starts with the text `p`. -/
def StartsWith (p out : String) : Prop :=
  ∃ suf : String, out = p ++ suf

/-- The text `out` ends with the text `q`. -/
def EndsWith (q out : String) : Prop :=
  ∃ pre : String, out = pre ++ q

/-! ## Helper lemmas -/

/-- What `Update` returns is the quit command or no command, and a state that
differs from the old one in at most the field the message sets. -/
theorem Update_cases (m : model) (msg : Msg) :
    (∃ code, msg = Msg.statusMsg code ∧
        m.Update msg = ({ m with status := code }, some Cmd.Quit)) ∨
    (∃ e, msg = Msg.errMsg e ∧ m.Update msg = ({ m with err := some e }, some Cmd.Quit)) ∨
    m.Update msg = (m, some Cmd.Quit) ∨ m.Update msg = (m, none) := by
  cases msg with
  | statusMsg code => exact Or.inl ⟨code, rfl, rfl⟩
  | errMsg e => exact Or.inr (Or.inl ⟨e, rfl, rfl⟩)
  | KeyMsg k =>
    by_cases hk : k.String = "ctrl+c"
    · exact Or.inr (Or.inr (Or.inl (by simp [model.Update, hk])))
    · exact Or.inr (Or.inr (Or.inr (by simp [model.Update, hk])))
  | other tag => exact Or.inr (Or.inr (Or.inr rfl))

/-- A stopped session ignores an event. -/
theorem deliver_of_terminated (s : Session) (msg : Msg) (h : s.terminated = true) :
    s.deliver msg = s := by
  simp [Session.deliver, h]

/-- A stopped session ignores every sequence of events. -/
theorem eventLoop_of_terminated (msgs : List Msg) :
    ∀ s : Session, s.terminated = true → eventLoop s msgs = s := by
  induction msgs with
  | nil => intro s _; rfl
  | cons msg rest ih =>
    intro s h
    show eventLoop (s.deliver msg) rest = s
    rw [deliver_of_terminated s msg h]
    exact ih s h

/-- The loop over a sequence followed by another is the loop over the second
from where the first one ended. -/
theorem eventLoop_append (s : Session) (xs ys : List Msg) :
    eventLoop s (xs ++ ys) = eventLoop (eventLoop s xs) ys := by
  simp [eventLoop, List.foldl_append]

/-- The invariant of a session: while it runs the state is still `model{}`, and
at no time are both fields populated. -/
def Session.Inv (s : Session) : Prop :=
  (s.terminated = false → s.m = {}) ∧ ¬ (statusPresent s.m ∧ errorPresent s.m)

/-- The initial session satisfies the invariant. -/
theorem Inv_initial : Session.initial.Inv := by
  refine ⟨fun _ => rfl, ?_⟩
  rintro ⟨h, _⟩
  exact absurd h (by decide)

/-- A running session whose `Update` returns the quit command stops. -/
theorem deliver_of_quit (s : Session) (msg : Msg) (m' : model)
    (hf : s.terminated = false) (hu : s.m.Update msg = (m', some Cmd.Quit)) :
    s.deliver msg = { m := m', terminated := true } := by
  simp [Session.deliver, hf, hu]

/-- A running session whose `Update` returns no command keeps running. -/
theorem deliver_of_none (s : Session) (msg : Msg) (m' : model)
    (hf : s.terminated = false) (hu : s.m.Update msg = (m', none)) :
    s.deliver msg = { m := m', terminated := false } := by
  simp [Session.deliver, hf, hu]

/-- Delivering one event keeps the invariant. -/
theorem Inv_deliver (s : Session) (msg : Msg) (h : s.Inv) : (s.deliver msg).Inv := by
  by_cases ht : s.terminated = true
  · rw [deliver_of_terminated s msg ht]; exact h
  · have hf : s.terminated = false := by simpa using ht
    have hm : s.m = {} := h.1 hf
    rcases Update_cases s.m msg with ⟨code, _, hu⟩ | ⟨e, _, hu⟩ | hu | hu
    · rw [deliver_of_quit s msg _ hf hu, hm]
      refine ⟨by simp, ?_⟩
      rintro ⟨_, h2⟩
      exact h2 rfl
    · rw [deliver_of_quit s msg _ hf hu, hm]
      refine ⟨by simp, ?_⟩
      rintro ⟨h1, _⟩
      exact absurd h1 (by simp [statusPresent])
    · rw [deliver_of_quit s msg _ hf hu, hm]
      refine ⟨by simp, ?_⟩
      rintro ⟨h1, _⟩
      exact absurd h1 (by simp [statusPresent])
    · rw [deliver_of_none s msg _ hf hu, hm]
      refine ⟨fun _ => rfl, ?_⟩
      rintro ⟨h1, _⟩
      exact absurd h1 (by simp [statusPresent])

/-- The event loop keeps the invariant. -/
theorem Inv_eventLoop (msgs : List Msg) : ∀ s : Session, s.Inv → (eventLoop s msgs).Inv := by
  induction msgs with
  | nil => intro s h; exact h
  | cons msg rest ih =>
    intro s h
    exact ih (s.deliver msg) (Inv_deliver s msg h)

/-- Occurrence in a text, read on the lists of characters. -/
theorem Occurs_iff (sub out : String) : Occurs sub out ↔ sub.data <:+: out.data := by
  constructor
  · rintro ⟨pre, suf, h⟩
    exact ⟨pre.data, suf.data, by rw [h]; simp⟩
  · rintro ⟨p, q, h⟩
    refine ⟨⟨p⟩, ⟨q⟩, ?_⟩
    apply String.ext
    simp [← h]

instance (sub out : String) : Decidable (Occurs sub out) :=
  decidable_of_iff _ (Occurs_iff sub out).symm

/-- Starting with a text, read on the lists of characters. -/
theorem StartsWith_iff (p out : String) : StartsWith p out ↔ p.data <+: out.data := by
  constructor
  · rintro ⟨suf, h⟩
    exact ⟨suf.data, by rw [h]; simp⟩
  · rintro ⟨q, h⟩
    refine ⟨⟨q⟩, ?_⟩
    apply String.ext
    simp [← h]

/-- Ending with a text, read on the lists of characters. -/
theorem EndsWith_iff (q out : String) : EndsWith q out ↔ q.data <:+ out.data := by
  constructor
  · rintro ⟨pre, h⟩
    exact ⟨pre.data, by rw [h]; simp⟩
  · rintro ⟨p, h⟩
    refine ⟨⟨p⟩, ?_⟩
    apply String.ext
    simp [← h]

instance (p out : String) : Decidable (StartsWith p out) :=
  decidable_of_iff _ (StartsWith_iff p out).symm

instance (q out : String) : Decidable (EndsWith q out) :=
  decidable_of_iff _ (EndsWith_iff q out).symm

/-- The text of `View` when no error is stored: the frame around the line that
announces the check and, for a status above zero, the status line. -/
theorem View_of_no_error (m : model) (h : m.err = none) :
    m.View = "\n" ++ (if m.status > 0
        then "Checking " ++ url ++ "...\n" ++
          (fmtD m.status ++ " " ++ StatusText m.status ++ "!")
        else "Checking " ++ url ++ "...\n") ++ "\n\n" := by
  simp [model.View, h]

/-- The text of `View` when an error is stored: the error message alone. -/
theorem View_of_some_error (m : model) (e : errMsg) (h : m.err = some e) :
    m.View = "Error: " ++ fmtV e ++ "\nPress Ctrl+C to exit." := by
  simp [model.View, h]

/-- The error message of `View` has no frame: it starts with `Error` and ends
with a full stop, whatever the text of the error. -/
theorem View_of_error_not_framed (m : model) (h : m.err ≠ none) :
    ¬ StartsWith "\n" m.View ∧ ¬ EndsWith "\n\n" m.View := by
  obtain ⟨e, he⟩ := Option.ne_none_iff_exists'.mp h
  rw [View_of_some_error m e he, StartsWith_iff, EndsWith_iff]
  constructor
  · intro hp
    have h1 : ("Error: " ++ fmtV e ++ "\nPress Ctrl+C to exit.").data
        = 'E' :: ("rror: ".data ++ (fmtV e).data ++ "\nPress Ctrl+C to exit.".data) := by
      simp [String.data_append]
    have h2 : "\n".data = ['\n'] := rfl
    rw [h1, h2, List.cons_prefix_cons] at hp
    exact absurd hp.1 (by decide)
  · intro hs
    rw [← List.reverse_prefix] at hs
    have h1 : ("Error: " ++ fmtV e ++ "\nPress Ctrl+C to exit.").data.reverse
        = '.' :: ("\nPress Ctrl+C to exit".data.reverse ++ ("Error: " ++ fmtV e).data.reverse) := by
      simp [String.data_append]
    have h2 : "\n\n".data.reverse = '\n' :: ['\n'] := rfl
    rw [h1, h2, List.cons_prefix_cons] at hs
    exact absurd hs.1 (by decide)

/-- The method `Update` has no guard of its own against a late outcome: applied
once more after a success, it stores the error next to the status code. That a
stopped session is not changed is the work of the loop, which calls `Update` no
more. -/
theorem Update_after_success_stores_error :
    (model.Update (model.Update {} (Msg.statusMsg 200)).1 (Msg.errMsg ⟨some ⟨"timeout"⟩⟩)).1
      = { status := 200, err := some ⟨some ⟨"timeout"⟩⟩ } := by
  decide

/-- The frame and the first line of `View`, in front of any further text. -/
theorem checking_line_append (rest : String) :
    "\n" ++ ("Checking " ++ url ++ "...\n" ++ rest) ++ "\n\n"
      = "\nChecking https://charm.sh...\n" ++ rest ++ "\n\n" := by
  have h : "\n" ++ ("Checking " ++ url ++ "...\n") = "\nChecking https://charm.sh...\n" := by
    decide
  rw [← String.append_assoc, h]

/-- The verb `%d` on a number above zero: its decimal digits, no sign. -/
theorem fmtD_of_pos (c : Int) (hc : 0 < c) : fmtD c = Nat.repr c.toNat := by
  have h : ¬ c < 0 := not_lt.mpr (le_of_lt hc)
  simp [fmtD, h]

/-! ## The claims -/

/-- C1: in every session state that the event loop reaches from the initial state
`model{}`, the status code and the probe error are never both populated: it is
never the case that `status > 0` and `err` is non-nil at the same time. -/
theorem reachable_never_both_populated (msgs : List Msg) :
    ¬ (0 < (eventLoop Session.initial msgs).m.status ∧
        (eventLoop Session.initial msgs).m.err ≠ none) :=
  (Inv_eventLoop msgs Session.initial Inv_initial).2

/-- C2, as the claim states it, fails for the code zero: the prober passes a
response with status code `0` on as `statusMsg(0)`, and after this first terminal
event the session has stopped with neither field present. -/
theorem first_outcome_zero_code_neither_present :
    checkServer (.ok { StatusCode := 0 }) = Msg.statusMsg 0 ∧
    (Session.initial.deliver (Msg.statusMsg 0)).terminated = true ∧
    (Session.initial.deliver (Msg.statusMsg 0)).m.status = 0 ∧
    (Session.initial.deliver (Msg.statusMsg 0)).m.err = none ∧
    ¬ statusPresent (Session.initial.deliver (Msg.statusMsg 0)).m ∧
    ¬ errorPresent (Session.initial.deliver (Msg.statusMsg 0)).m := by
  decide

/-- C2, amended: while the session runs (before the first terminal event) both
fields are absent, `status = 0` and `err = nil`; when the first terminal event is
`success(code)` with a code above zero, afterwards the status code is present and
the probe error is absent; when it is `failure(e)`, afterwards the probe error is
present and the status code is absent. -/
theorem first_outcome_exactly_one_present (pre : List Msg) (code : Int) (e : errMsg)
    (hrun : (eventLoop Session.initial pre).terminated = false) (hpos : 0 < code) :
    (Session.initial.m.status = 0 ∧ Session.initial.m.err = none) ∧
    ((eventLoop Session.initial pre).m.status = 0 ∧
      (eventLoop Session.initial pre).m.err = none) ∧
    (statusPresent (eventLoop Session.initial (pre ++ [Msg.statusMsg code])).m ∧
      ¬ errorPresent (eventLoop Session.initial (pre ++ [Msg.statusMsg code])).m) ∧
    (errorPresent (eventLoop Session.initial (pre ++ [Msg.errMsg e])).m ∧
      ¬ statusPresent (eventLoop Session.initial (pre ++ [Msg.errMsg e])).m) := by
  have hm : (eventLoop Session.initial pre).m = {} :=
    (Inv_eventLoop pre Session.initial Inv_initial).1 hrun
  have hs : (eventLoop Session.initial (pre ++ [Msg.statusMsg code])).m
      = { status := code, err := none } := by
    rw [eventLoop_append]
    show ((eventLoop Session.initial pre).deliver (Msg.statusMsg code)).m = _
    rw [deliver_of_quit _ _ _ hrun rfl, hm]
  have he : (eventLoop Session.initial (pre ++ [Msg.errMsg e])).m
      = { status := 0, err := some e } := by
    rw [eventLoop_append]
    show ((eventLoop Session.initial pre).deliver (Msg.errMsg e)).m = _
    rw [deliver_of_quit _ _ _ hrun rfl, hm]
  refine ⟨⟨rfl, rfl⟩, ⟨by rw [hm], by rw [hm]⟩, ?_, ?_⟩
  · rw [hs]
    exact ⟨hpos, fun h => h rfl⟩
  · rw [he]
    exact ⟨by simp [errorPresent], by simp [statusPresent]⟩

/-- The theorem `first_outcome_exactly_one_present` applied at a concrete input. -/
theorem first_outcome_exactly_one_present_witness :
    (eventLoop Session.initial [Msg.other 0, Msg.KeyMsg ⟨"q"⟩]).terminated = false ∧
    (0 : Int) < 200 ∧
    statusPresent (eventLoop Session.initial
      ([Msg.other 0, Msg.KeyMsg ⟨"q"⟩] ++ [Msg.statusMsg 200])).m ∧
    errorPresent (eventLoop Session.initial
      ([Msg.other 0, Msg.KeyMsg ⟨"q"⟩] ++ [Msg.errMsg ⟨some ⟨"connection refused"⟩⟩])).m :=
  ⟨by decide, by decide,
    (first_outcome_exactly_one_present [Msg.other 0, Msg.KeyMsg ⟨"q"⟩] 200
      ⟨some ⟨"connection refused"⟩⟩ (by decide) (by decide)).2.2.1.1,
    (first_outcome_exactly_one_present [Msg.other 0, Msg.KeyMsg ⟨"q"⟩] 200
      ⟨some ⟨"connection refused"⟩⟩ (by decide) (by decide)).2.2.2.1⟩

/-- C3: once the session has stopped (an `Update` has returned the quit command,
from a success, a failure or a cancellation), a probe outcome delivered late,
`success(code)` or `failure(e)`, changes nothing: the session state and the text
of `View` are what they were before the late event; and a status code that has
been set stays the same whatever events follow in the run. -/
theorem late_outcome_is_ignored (evs : List Msg) (code : Int) (e : errMsg)
    (hterm : (eventLoop Session.initial evs).terminated = true) :
    eventLoop Session.initial (evs ++ [Msg.statusMsg code]) = eventLoop Session.initial evs ∧
    eventLoop Session.initial (evs ++ [Msg.errMsg e]) = eventLoop Session.initial evs ∧
    (eventLoop Session.initial (evs ++ [Msg.statusMsg code])).m.View
      = (eventLoop Session.initial evs).m.View ∧
    (eventLoop Session.initial (evs ++ [Msg.errMsg e])).m.View
      = (eventLoop Session.initial evs).m.View ∧
    (∀ more : List Msg, statusPresent (eventLoop Session.initial evs).m →
      (eventLoop Session.initial (evs ++ more)).m.status
        = (eventLoop Session.initial evs).m.status) := by
  have h1 : eventLoop Session.initial (evs ++ [Msg.statusMsg code])
      = eventLoop Session.initial evs := by
    rw [eventLoop_append]; exact eventLoop_of_terminated _ _ hterm
  have h2 : eventLoop Session.initial (evs ++ [Msg.errMsg e])
      = eventLoop Session.initial evs := by
    rw [eventLoop_append]; exact eventLoop_of_terminated _ _ hterm
  refine ⟨h1, h2, by rw [h1], by rw [h2], ?_⟩
  intro more _
  rw [eventLoop_append, eventLoop_of_terminated more _ hterm]

/-- The theorem `late_outcome_is_ignored` applied at a concrete input. -/
theorem late_outcome_is_ignored_witness :
    (eventLoop Session.initial [Msg.statusMsg 200]).terminated = true ∧
    eventLoop Session.initial ([Msg.statusMsg 200] ++ [Msg.errMsg ⟨some ⟨"timeout"⟩⟩])
      = eventLoop Session.initial [Msg.statusMsg 200] :=
  ⟨by decide,
    (late_outcome_is_ignored [Msg.statusMsg 200] 404 ⟨some ⟨"timeout"⟩⟩ (by decide)).2.1⟩

/-- C4: for every session state `m`, `Update` on a key event whose string form is
`"ctrl+c"` returns `m` unchanged together with the quit command; delivered to the
initial state before any probe outcome, it stops the session with the status code
and the probe error both absent, and `View` of the resulting state is exactly the
frame around the single line `Checking https://charm.sh...`, with no status line
and no error line. -/
theorem ctrl_c_quits_without_mutation (m : model) (k : KeyMsg) (hk : k.String = "ctrl+c") :
    m.Update (Msg.KeyMsg k) = (m, some Cmd.Quit) ∧
    (Session.initial.deliver (Msg.KeyMsg k)).terminated = true ∧
    (Session.initial.deliver (Msg.KeyMsg k)).m.status = 0 ∧
    (Session.initial.deliver (Msg.KeyMsg k)).m.err = none ∧
    ¬ statusPresent (Session.initial.deliver (Msg.KeyMsg k)).m ∧
    ¬ errorPresent (Session.initial.deliver (Msg.KeyMsg k)).m ∧
    (Session.initial.deliver (Msg.KeyMsg k)).m.View = "\nChecking https://charm.sh...\n\n\n" := by
  have hu : ∀ m : model, m.Update (Msg.KeyMsg k) = (m, some Cmd.Quit) := by
    intro m; simp [model.Update, hk]
  have hd : Session.initial.deliver (Msg.KeyMsg k) = { m := {}, terminated := true } :=
    deliver_of_quit Session.initial (Msg.KeyMsg k) {} rfl (hu _)
  rw [hd]
  exact ⟨hu m, rfl, rfl, rfl, by decide, by decide, by decide⟩

/-- The theorem `ctrl_c_quits_without_mutation` applied at a concrete input. -/
theorem ctrl_c_quits_without_mutation_witness :
    (KeyMsg.mk "ctrl+c").String = "ctrl+c" ∧
    model.Update { status := 200, err := none } (Msg.KeyMsg ⟨"ctrl+c"⟩)
      = ({ status := 200, err := none }, some Cmd.Quit) :=
  ⟨by decide,
    (ctrl_c_quits_without_mutation { status := 200, err := none } ⟨"ctrl+c"⟩ (by decide)).1⟩

/-- C5: for every session state `m` and every integer `code`, `Update` on
`success(code)` returns the state whose status code is `code` and whose probe
error is the one of `m`, together with the quit command. -/
theorem update_success (m : model) (code : Int) :
    m.Update (Msg.statusMsg code) = ({ status := code, err := m.err }, some Cmd.Quit) ∧
    (m.Update (Msg.statusMsg code)).1.status = code ∧
    (m.Update (Msg.statusMsg code)).1.err = m.err ∧
    (m.Update (Msg.statusMsg code)).2 = some Cmd.Quit :=
  ⟨rfl, rfl, rfl, rfl⟩

/-- C6: for every session state `m` and every failure outcome `e`, `Update` on
`failure(e)` returns the state whose probe error is `e` and whose status code is
the one of `m`, together with the quit command. `Update` is a total function that
returns a state and a command for every message, a failure included: the failure
does not come out as a fault of `Update`. -/
theorem update_failure (m : model) (e : errMsg) :
    m.Update (Msg.errMsg e) = ({ status := m.status, err := some e }, some Cmd.Quit) ∧
    (m.Update (Msg.errMsg e)).1.err = some e ∧
    (m.Update (Msg.errMsg e)).1.status = m.status ∧
    (m.Update (Msg.errMsg e)).2 = some Cmd.Quit :=
  ⟨rfl, rfl, rfl, rfl⟩

/-- C7: for every session state `m` and every event that is neither a probe
success, nor a probe failure, nor a key event whose string form is `"ctrl+c"`,
`Update` returns `m` unchanged and no command, and a running session that is
delivered the event keeps running, its state unchanged. -/
theorem other_event_is_ignored (m : model) (msg : Msg)
    (hs : ∀ code, msg ≠ Msg.statusMsg code) (he : ∀ e, msg ≠ Msg.errMsg e)
    (hk : ∀ k, msg = Msg.KeyMsg k → k.String ≠ "ctrl+c") :
    m.Update msg = (m, none) ∧
    Session.deliver { m := m, terminated := false } msg = { m := m, terminated := false } := by
  have hu : m.Update msg = (m, none) := by
    cases msg with
    | statusMsg code => exact absurd rfl (hs code)
    | errMsg e => exact absurd rfl (he e)
    | KeyMsg k => simp [model.Update, hk k rfl]
    | other tag => rfl
  exact ⟨hu, deliver_of_none _ msg m rfl hu⟩

/-- The theorem `other_event_is_ignored` applied at a concrete input. -/
theorem other_event_is_ignored_witness :
    (∀ code, Msg.KeyMsg ⟨"q"⟩ ≠ Msg.statusMsg code) ∧
    (∀ e, Msg.KeyMsg ⟨"q"⟩ ≠ Msg.errMsg e) ∧
    (∀ k, Msg.KeyMsg ⟨"q"⟩ = Msg.KeyMsg k → k.String ≠ "ctrl+c") ∧
    model.Update { status := 0, err := none } (Msg.KeyMsg ⟨"q"⟩)
      = ({ status := 0, err := none }, none) :=
  ⟨fun _ h => Msg.noConfusion h, fun _ h => Msg.noConfusion h,
    fun k h => by cases h; decide,
    (other_event_is_ignored { status := 0, err := none } (Msg.KeyMsg ⟨"q"⟩)
      (fun _ h => Msg.noConfusion h) (fun _ h => Msg.noConfusion h)
      (fun k h => by cases h; decide)).1⟩

/-- C8: for every status code `c` above zero, `View` of the state obtained from
the initial state by `Update` with `success(c)` is exactly
`"\nChecking https://charm.sh...\n"`, then the decimal digits of `c`, a space, the
reason phrase of `c`, `"!"` and `"\n\n"`; for `c = 200` the text contains `200`
and `OK`, and for `c = 404` it contains `404` and `Not Found`. -/
theorem view_after_success (c : Int) (hc : 0 < c) :
    (model.Update {} (Msg.statusMsg c)).1.View
      = "\nChecking https://charm.sh...\n" ++ (Nat.repr c.toNat ++ " " ++ StatusText c ++ "!")
          ++ "\n\n" ∧
    (model.Update {} (Msg.statusMsg 200)).1.View = "\nChecking https://charm.sh...\n200 OK!\n\n" ∧
    Occurs "200" (model.Update {} (Msg.statusMsg 200)).1.View ∧
    Occurs "OK" (model.Update {} (Msg.statusMsg 200)).1.View ∧
    (model.Update {} (Msg.statusMsg 404)).1.View
      = "\nChecking https://charm.sh...\n404 Not Found!\n\n" ∧
    Occurs "404" (model.Update {} (Msg.statusMsg 404)).1.View ∧
    Occurs "Not Found" (model.Update {} (Msg.statusMsg 404)).1.View := by
  refine ⟨?_, by decide, by decide, by decide, by decide, by decide, by decide⟩
  show model.View { status := c, err := none } = _
  simp only [model.View, gt_iff_lt, hc, if_true]
  rw [fmtD_of_pos c hc]
  exact checking_line_append _

/-- The theorem `view_after_success` applied at a concrete input. -/
theorem view_after_success_witness :
    (0 : Int) < 503 ∧
    (model.Update {} (Msg.statusMsg 503)).1.View
      = "\nChecking https://charm.sh...\n" ++ (Nat.repr (503 : Int).toNat ++ " " ++
          StatusText 503 ++ "!") ++ "\n\n" :=
  ⟨by decide, (view_after_success 503 (by decide)).1⟩

/-- C9: for every session state in which the probe error is present with text `t`,
whatever the status code, `View` returns exactly `"Error: "`, then `t`, then
`"\nPress Ctrl+C to exit."`; after `failure("connection refused")` on the initial
state the text contains `Error: connection refused` and the instruction
`Press Ctrl+C to exit.`, and it does not contain the line that starts `Checking`. -/
theorem view_of_error (m : model) (e : errMsg) (t : String)
    (hm : m.err = some e) (ht : e.Error = some t) :
    m.View = "Error: " ++ t ++ "\nPress Ctrl+C to exit." ∧
    Occurs "Error: connection refused"
      (model.Update {} (Msg.errMsg ⟨some ⟨"connection refused"⟩⟩)).1.View ∧
    Occurs "Press Ctrl+C to exit."
      (model.Update {} (Msg.errMsg ⟨some ⟨"connection refused"⟩⟩)).1.View ∧
    ¬ Occurs "Checking"
      (model.Update {} (Msg.errMsg ⟨some ⟨"connection refused"⟩⟩)).1.View := by
  refine ⟨?_, by decide, by decide, by decide⟩
  simp [model.View, hm, fmtV, ht]

/-- The theorem `view_of_error` applied at a concrete input. -/
theorem view_of_error_witness :
    (model.mk 200 (some ⟨some ⟨"connection refused"⟩⟩)).err
      = some ⟨some ⟨"connection refused"⟩⟩ ∧
    errMsg.Error ⟨some ⟨"connection refused"⟩⟩ = some "connection refused" ∧
    (model.mk 200 (some ⟨some ⟨"connection refused"⟩⟩)).View
      = "Error: " ++ "connection refused" ++ "\nPress Ctrl+C to exit." :=
  ⟨rfl, rfl,
    (view_of_error (model.mk 200 (some ⟨some ⟨"connection refused"⟩⟩))
      ⟨some ⟨"connection refused"⟩⟩ "connection refused" rfl rfl).1⟩

/-- C10: `View` of the initial state `model{}`, no event processed, is exactly
`"\nChecking https://charm.sh...\n\n\n"`: it contains the line
`Checking https://charm.sh...`, and neither an error line (no `Error:`) nor a
status line (no digit and no `!`, with which every status line ends). -/
theorem view_of_initial :
    model.View {} = "\nChecking https://charm.sh...\n\n\n" ∧
    Session.initial.m.View = "\nChecking https://charm.sh...\n\n\n" ∧
    Occurs "Checking https://charm.sh..." (model.View {}) ∧
    ¬ Occurs "Error:" (model.View {}) ∧
    ¬ Occurs "!" (model.View {}) ∧
    (∀ ch ∈ (model.View {}).data, ch.isDigit = false) := by
  decide

/-- C11, as the claim states it, fails for a state that holds an error: after
`failure("connection refused")` the text of `View` is the error message alone, which
neither starts with `"\n"` nor ends with `"\n\n"`. -/
theorem view_of_error_state_has_no_frame :
    (model.Update {} (Msg.errMsg ⟨some ⟨"connection refused"⟩⟩)).1.View
      = "Error: connection refused\nPress Ctrl+C to exit." ∧
    ¬ StartsWith "\n" (model.Update {} (Msg.errMsg ⟨some ⟨"connection refused"⟩⟩)).1.View ∧
    ¬ EndsWith "\n\n" (model.Update {} (Msg.errMsg ⟨some ⟨"connection refused"⟩⟩)).1.View := by
  decide

/-- C11, amended: for every session state in which the probe error is absent, the
text of `View` is framed with a leading blank line and a trailing double blank
line, it starts with `"\n"` and ends with `"\n\n"`; for every state in which the
probe error is present the text is the error message without the frame. -/
theorem view_is_framed_when_no_error (m : model) :
    (m.err = none → StartsWith "\n" m.View ∧ EndsWith "\n\n" m.View) ∧
    (m.err ≠ none → ¬ StartsWith "\n" m.View ∧ ¬ EndsWith "\n\n" m.View) := by
  refine ⟨fun h => ?_, View_of_error_not_framed m⟩
  rw [View_of_no_error m h]
  exact ⟨⟨_, String.append_assoc _ _ _⟩, ⟨_, rfl⟩⟩

/-- The theorem `view_is_framed_when_no_error` applied at a concrete input. -/
theorem view_is_framed_when_no_error_witness :
    (model.mk 404 none).err = none ∧
    StartsWith "\n" (model.mk 404 none).View ∧ EndsWith "\n\n" (model.mk 404 none).View :=
  ⟨rfl, (view_is_framed_when_no_error (model.mk 404 none)).1 rfl⟩

/-- C12: the outcome of the prober is determined by the transport result alone:
for every transport error `e`, of whatever kind, `checkServer` returns the failure
outcome that wraps `e`, and for every response it returns the success outcome
with the status code of the response as it is, for any integer, with no range
validation. -/
theorem checkServer_passes_transport_result (e : GoError) (res : Response) (code : Int) :
    checkServer (.error e) = Msg.errMsg { err := some e } ∧
    checkServer (.ok res) = Msg.statusMsg res.StatusCode ∧
    checkServer (.ok { StatusCode := code }) = Msg.statusMsg code :=
  ⟨rfl, rfl, rfl⟩

/-- C13: the prober is scheduled once: for every session state `Init` returns the
command `checkServer`, a single command, and for every state and every event the
command that `Update` returns is the quit command or no command, never
`checkServer`. -/
theorem checkServer_scheduled_by_Init_only (m : model) (msg : Msg) :
    m.Init = some Cmd.checkServer ∧
    ((m.Update msg).2 = some Cmd.Quit ∨ (m.Update msg).2 = none) ∧
    (m.Update msg).2 ≠ some Cmd.checkServer := by
  refine ⟨rfl, ?_⟩
  rcases Update_cases m msg with ⟨_, _, hu⟩ | ⟨_, _, hu⟩ | hu | hu <;>
    rw [hu] <;> simp

/-- C14: the render is deterministic: the text of `View` depends only on the
fields `status` and `err` of the state (and the fixed target), so two calls on
states with the same fields, the same unchanged state in particular, return the
same text; `View` returns a text and no state, it does not alter `m`. -/
theorem view_is_deterministic (m₁ m₂ : model)
    (hs : m₁.status = m₂.status) (he : m₁.err = m₂.err) :
    m₁ = m₂ ∧ m₁.View = m₂.View ∧ m₁.View = m₁.View := by
  have h : m₁ = m₂ := by
    cases m₁; cases m₂; simp_all
  exact ⟨h, by rw [h], rfl⟩

/-- The theorem `view_is_deterministic` applied at a concrete input. -/
theorem view_is_deterministic_witness :
    (model.Update {} (Msg.statusMsg 200)).1.status = (model.mk 200 none).status ∧
    (model.Update {} (Msg.statusMsg 200)).1.err = (model.mk 200 none).err ∧
    (model.Update {} (Msg.statusMsg 200)).1.View = (model.mk 200 none).View :=
  ⟨rfl, rfl,
    (view_is_deterministic (model.Update {} (Msg.statusMsg 200)).1 (model.mk 200 none)
      rfl rfl).2.1⟩

/-- C15: the failure outcome shows the message of the underlying error as it is:
for every non-nil transport error `e` with message `t`, `errMsg{e}.Error()` is `t`,
and the state reached from the initial state by `Update` with the failure outcome
that `checkServer` builds from `e` renders as `"Error: "`, then `t`, then
`"\nPress Ctrl+C to exit."`. -/
theorem failure_shows_underlying_message (e : GoError) (t : String) (ht : e.Error = t) :
    errMsg.Error { err := some e } = some t ∧
    (model.Update {} (checkServer (.error e))).1.View
      = "Error: " ++ t ++ "\nPress Ctrl+C to exit." := by
  subst ht
  exact ⟨rfl, by simp [checkServer, model.Update, model.View, fmtV, errMsg.Error]⟩

/-- The theorem `failure_shows_underlying_message` applied at a concrete input. -/
theorem failure_shows_underlying_message_witness :
    GoError.Error ⟨"dial tcp: lookup charm.sh: no such host"⟩
      = "dial tcp: lookup charm.sh: no such host" ∧
    (model.Update {} (checkServer (.error ⟨"dial tcp: lookup charm.sh: no such host"⟩))).1.View
      = "Error: " ++ "dial tcp: lookup charm.sh: no such host" ++ "\nPress Ctrl+C to exit." :=
  ⟨rfl,
    (failure_shows_underlying_message ⟨"dial tcp: lookup charm.sh: no such host"⟩
      "dial tcp: lookup charm.sh: no such host" rfl).2⟩

/-- C16: a status code that is zero or negative is not told apart from no status:
for every integer `code` at most zero, `View` of the state obtained from the
initial state by `Update` with `success(code)` is `View` of the initial state,
`"\nChecking https://charm.sh...\n\n\n"`; the code is stored and not displayed,
and `Update` still returns the quit command. -/
theorem nonpositive_code_is_not_displayed (code : Int) (h : code ≤ 0) :
    (model.Update {} (Msg.statusMsg code)).1.View = model.View {} ∧
    (model.Update {} (Msg.statusMsg code)).1.View = "\nChecking https://charm.sh...\n\n\n" ∧
    (model.Update {} (Msg.statusMsg code)).1.status = code ∧
    (model.Update {} (Msg.statusMsg code)).2 = some Cmd.Quit := by
  have hv : (model.Update {} (Msg.statusMsg code)).1.View
      = "\nChecking https://charm.sh...\n\n\n" := by
    show model.View { status := code, err := none } = _
    have hn : ¬ code > 0 := not_lt.mpr h
    simp only [model.View, hn, if_false]
    decide
  exact ⟨by rw [hv]; decide, hv, rfl, rfl⟩

/-- The theorem `nonpositive_code_is_not_displayed` applied at a concrete input. -/
theorem nonpositive_code_is_not_displayed_witness :
    (-1 : Int) ≤ 0 ∧
    (model.Update {} (Msg.statusMsg (-1))).1.View = model.View {} ∧
    (model.Update {} (Msg.statusMsg (-1))).1.status = -1 :=
  ⟨by decide, (nonpositive_code_is_not_displayed (-1) (by decide)).1,
    (nonpositive_code_is_not_displayed (-1) (by decide)).2.2.1⟩

end HttpCodes
